import Mathlib

/-!
Verification of the concurrent batch extraction engine of the
ai-extract-text-image repository (src/src/batch_processor.py, src/main.py,
src/src/models.py, src/src/config.py, src/src/export.py).

The embedding is shallow: the per-attempt behaviour of the remote inference
call (the body of `extract_contact`: image encoding plus the Azure OpenAI
request) is a parameter `attempt : ImagePath → Nat → Except PyExc
ExtractionResult` giving, for each image and each attempt number (1-based),
either the parsed result or the Python exception raised on that attempt.
Everything deterministic around it — the tenacity retry decorator, the
per-job dict construction, the batch fan-out, the aggregation and the exit
code — is translated directly from the source.

The semaphore-based concurrency of `process_single_image` is modelled as an
interleaving transition system on the state of the `asyncio.Semaphore`
counter and the per-task phases.
-/

namespace HeicExtract

/-- `ContactInfo` (src/src/models.py): all extracted fields are optional
strings; `None` means "not visible in the source image". -/
structure ContactInfo where
  full_name : Option String
  company_name : Option String
  job_title : Option String
  phone_number : Option String
  mobile_number : Option String
  email : Option String
  address : Option String
  city : Option String
  state : Option String
  zip_code : Option String
  country : Option String
  last_contact_date : Option String
  website : Option String
  notes : Option String
  confidence_score : Option String
deriving DecidableEq, Repr

/-- `ExtractionResult` (src/src/models.py): wrapper returned by the parsed
chat completion. -/
structure ExtractionResult where
  contact : ContactInfo
  extraction_status : String
  error_message : Option String
deriving DecidableEq, Repr

/-- A Python exception as observable by this code path: its class name
(shown by `repr` of a finished future) and its rendered message (`str(e)`). -/
structure PyExc where
  typeName : String
  msg : String
deriving DecidableEq, Repr

/-- An input image file; the code only ever uses `image_path.stem`
(the filename without its final extension). -/
structure ImagePath where
  stem : String
deriving DecidableEq, Repr

/-- tenacity `wait_exponential(multiplier=m, min=lo, max=hi)` applied at
`attempt_number = k`: `max(max(0, lo), min(m * 2 ** (k - 1), hi))`.
All parameters used by the source (1, 4, 60) are integers, so `Nat`
arithmetic is exact. -/
def waitExponential (multiplier lo hi : Nat) (attemptNumber : Nat) : Nat :=
  max (max 0 lo) (min (multiplier * 2 ^ (attemptNumber - 1)) hi)

/-- Result of a tenacity-wrapped call: either the wrapped function's value,
or (with the default `reraise=False`) a terminal `RetryError` that
encapsulates the last failed attempt. -/
inductive RetryResult (R : Type) where
  | ok (value : R)
  | retryError (lastExc : PyExc)
deriving DecidableEq, Repr

/-- The tenacity retry loop with `stop_after_attempt` and
`wait_exponential(multiplier=1, min=4, max=60)`: `fuel` is the number of
attempts still allowed, `k` the 1-based number of the attempt about to run.
Returns the result, the number of the last attempt executed, and the list
of back-off waits (in seconds) inserted between consecutive attempts.
The `fuel = 0` branch is never reached when starting from `fuel ≥ 1`. -/
def runRetryGo {R : Type} (call : Nat → Except PyExc R) :
    Nat → Nat → RetryResult R × Nat × List Nat
  | 0, _ => (RetryResult.retryError ⟨"Exception", ""⟩, 0, [])
  | fuel + 1, k =>
    match call k with
    | Except.ok v => (RetryResult.ok v, k, [])
    | Except.error e =>
      if fuel = 0 then
        (RetryResult.retryError e, k, [])
      else
        let rest := runRetryGo call fuel (k + 1)
        (rest.1, rest.2.1, waitExponential 1 4 60 k :: rest.2.2)

/-- `extract_contact` (src/src/batch_processor.py lines 43-47) as decorated
by `@retry(stop=stop_after_attempt(3), wait=wait_exponential(multiplier=1,
min=4, max=60))`: up to 3 total attempts of the given per-attempt body. -/
def extract_contact {R : Type} (call : Nat → Except PyExc R) :
    RetryResult R × Nat × List Nat :=
  runRetryGo call 3 1

/-- `str` of the tenacity `RetryError` raised on exhaustion: the class name
followed by the `repr` of the encapsulated finished future, which shows the
future's address and the CLASS name of the last attempt's exception — not
its message. `addr` is the address rendered by `repr`. -/
def strRetryError (addr : String) (lastExc : PyExc) : String :=
  "RetryError[<Future at " ++ addr ++ " state=finished raised " ++
    lastExc.typeName ++ ">]"

/-- The dict returned by `process_single_image` (src/src/batch_processor.py
lines 99-133). `data` is a Python dict holding the key `source_image` in
both branches and, on the success branch only, additionally the 15
`ContactInfo` fields from `result.contact.model_dump()`; here the dict is
split into the always-present `source_image` entry and the
success-only `contactData` part. -/
structure Outcome where
  status : String
  contactData : Option ContactInfo
  source_image : String
  error : Option String
deriving DecidableEq, Repr

/-- `process_single_image` (src/src/batch_processor.py lines 99-133): runs
`extract_contact` (in a worker thread, under the semaphore) and converts
either outcome of the retried call into a dict; the `except Exception`
handler turns the terminal `RetryError` into a status="failed" record, so
the function returns a plain `Outcome` and never propagates an exception. -/
def process_single_image
    (attempt : ImagePath → Nat → Except PyExc ExtractionResult)
    (addr : String) (image_path : ImagePath) : Outcome :=
  match (extract_contact (attempt image_path)).1 with
  | RetryResult.ok r =>
    { status := "success"
      contactData := some r.contact
      source_image := image_path.stem ++ ".HEIC"
      error := none }
  | RetryResult.retryError e =>
    { status := "failed"
      contactData := none
      source_image := image_path.stem ++ ".HEIC"
      error := some (strRetryError addr e) }

/-- `process_batch` (src/src/batch_processor.py lines 135-150): one task per
input path; `tqdm_asyncio.gather` awaits all of them and returns their
results sorted back into input order. -/
def process_batch
    (attempt : ImagePath → Nat → Except PyExc ExtractionResult)
    (addr : String) (image_paths : List ImagePath) : List Outcome :=
  image_paths.map (process_single_image attempt addr)

/-- `successful = [r for r in results if r['status'] == 'success']`
(src/main.py line 95; same recount in src/src/export.py). -/
def successfulOf (results : List Outcome) : List Outcome :=
  results.filter (fun r => r.status == "success")

/-- `failed = [r for r in results if r['status'] == 'failed']`
(src/main.py line 96; same recount in src/src/export.py). -/
def failedOf (results : List Outcome) : List Outcome :=
  results.filter (fun r => r.status == "failed")

/-- Python truthiness of a credential string from the environment
(src/src/config.py): `not self.api_key` is true when the variable is unset
or set to the empty string. -/
def credentialPresent : Option String → Bool
  | none => false
  | some s => !s.isEmpty

/-- `Config.__init__` (src/src/config.py) raises `ValueError` unless both
`AZURE_OPENAI_API_KEY` and `AZURE_OPENAI_ENDPOINT` are present. -/
def configValid (apiKey endpoint : Option String) : Bool :=
  credentialPresent apiKey && credentialPresent endpoint

/-- The exit code of `main` (src/main.py): 1 on `ValueError` from `Config`;
1 when no images were converted; otherwise run the batch and return 0 when
no job failed, 0 when at least one job succeeded, and 1 otherwise. -/
def mainExitCode (apiKey endpoint : Option String)
    (attempt : ImagePath → Nat → Except PyExc ExtractionResult)
    (addr : String) (converted_images : List ImagePath) : Nat :=
  if configValid apiKey endpoint = false then 1
  else if converted_images.isEmpty then 1
  else if (failedOf (process_batch attempt addr converted_images)).length = 0
    then 0
  else if
    0 < (successfulOf (process_batch attempt addr converted_images)).length
    then 0
  else 1

/-- Phase of one per-job task of `process_batch`: not yet past
`self.semaphore.acquire()`; inside the `async with` block (one semaphore
token held, remote call with retries in flight); or finished, the token
released by the `async with` exit on the success path (`failed = false`)
or on the exception path (`failed = true`). -/
inductive TaskPhase where
  | pending
  | running
  | done (failed : Bool)
deriving DecidableEq, Repr

/-- Whether a task currently holds a semaphore token. -/
def isRunning : TaskPhase → Bool
  | TaskPhase.running => true
  | _ => false

/-- Whether a task has finished and released its token. -/
def isDone : TaskPhase → Bool
  | TaskPhase.done _ => true
  | _ => false

/-- Shared state of one batch run: the `asyncio.Semaphore` counter and the
phase of each of the N spawned tasks. -/
structure BatchState where
  sem : Nat
  tasks : List TaskPhase
deriving DecidableEq, Repr

/-- Number of semaphore tokens outstanding = tasks inside `async with`. -/
def countRunning (s : BatchState) : Nat :=
  s.tasks.countP isRunning

/-- State at the start of `process_batch` with concurrency limit C and N
jobs: `Semaphore(max_concurrent)` freshly constructed, every task created
but none yet through `acquire`. -/
def initState (C N : Nat) : BatchState :=
  ⟨C, List.replicate N TaskPhase.pending⟩

/-- One scheduler step of the batch run: a pending task may pass
`self.semaphore.acquire()` only when the counter is positive (taking a
token), and a running task may finish — with either outcome — releasing its
token, since `async with self.semaphore` releases on both the normal return
and the exception exit. -/
inductive Step : BatchState → BatchState → Prop where
  | acquire (s : BatchState) (i : Nat)
      (hi : s.tasks.get? i = some TaskPhase.pending) (hsem : 0 < s.sem) :
      Step s ⟨s.sem - 1, s.tasks.set i TaskPhase.running⟩
  | finish (s : BatchState) (i : Nat) (failed : Bool)
      (hi : s.tasks.get? i = some TaskPhase.running) :
      Step s ⟨s.sem + 1, s.tasks.set i (TaskPhase.done failed)⟩

/-- States reachable during a batch run with limit C and N jobs. -/
inductive Reachable (C N : Nat) : BatchState → Prop where
  | init : Reachable C N (initState C N)
  | step {s t : BatchState} : Reachable C N s → Step s t → Reachable C N t

/-! ### Helper lemmas -/

/-- A per-attempt body that always raises: an always-failing call fixed for
use in concrete evaluations. -/
def alwaysBoom : Nat → Except PyExc ExtractionResult :=
  fun _ => Except.error ⟨"Exception", "boom"⟩

/-- A fixed rendering of the future's address in `repr`. -/
def someAddr : String := "0x7f0000000000"

theorem extract_contact_exhausts {R : Type} (call : Nat → Except PyExc R)
    (e1 e2 e3 : PyExc) (h1 : call 1 = Except.error e1)
    (h2 : call 2 = Except.error e2) (h3 : call 3 = Except.error e3) :
    extract_contact call =
      (RetryResult.retryError e3, 3,
        [waitExponential 1 4 60 1, waitExponential 1 4 60 2]) := by
  simp [extract_contact, runRetryGo, h1, h2, h3]

theorem process_single_image_source_image
    (attempt : ImagePath → Nat → Except PyExc ExtractionResult)
    (addr : String) (p : ImagePath) :
    (process_single_image attempt addr p).source_image = p.stem ++ ".HEIC" := by
  unfold process_single_image
  split <;> rfl

theorem process_single_image_status
    (attempt : ImagePath → Nat → Except PyExc ExtractionResult)
    (addr : String) (p : ImagePath) :
    (process_single_image attempt addr p).status = "success" ∨
      (process_single_image attempt addr p).status = "failed" := by
  unfold process_single_image
  split
  · exact Or.inl rfl
  · exact Or.inr rfl

theorem countP_set (p : TaskPhase → Bool) :
    ∀ (l : List TaskPhase) (i : Nat) (a b : TaskPhase),
      l.get? i = some a →
      ((l.set i b).countP p + (if p a then 1 else 0) =
        l.countP p + (if p b then 1 else 0))
  | [], i, a, b, h => by cases i <;> simp at h
  | x :: xs, 0, a, b, h => by
    have hx : x = a := by simpa using h
    subst hx
    simp [List.countP_cons]
    omega
  | x :: xs, i + 1, a, b, h => by
    have ih := countP_set p xs i a b h
    simp [List.countP_cons]
    omega

/-- The inductive invariant of the semaphore: outstanding tokens plus the
free counter always equal the configured limit. -/
theorem sem_invariant (C N : Nat) (s : BatchState) (h : Reachable C N s) :
    s.sem + countRunning s = C := by
  induction h with
  | init =>
    have hrep : (List.replicate N TaskPhase.pending).countP isRunning = 0 :=
      List.countP_eq_zero.mpr (by
        intro a ha
        rw [List.eq_of_mem_replicate ha]
        simp [isRunning])
    simp [initState, countRunning, hrep]
  | step hreach hstep ih =>
    cases hstep with
    | acquire i hi hsem =>
      rename_i s
      have hc := countP_set isRunning s.tasks i TaskPhase.pending
        TaskPhase.running hi
      simp [isRunning] at hc
      simp only [countRunning] at ih ⊢
      omega
    | finish i failed hi =>
      rename_i s
      have hc := countP_set isRunning s.tasks i TaskPhase.running
        (TaskPhase.done failed) hi
      simp [isRunning] at hc
      simp only [countRunning] at ih ⊢
      omega

theorem filter_partition_length (p q : Outcome → Bool) :
    ∀ l : List Outcome, (∀ x ∈ l, q x = !p x) →
      (l.filter p).length + (l.filter q).length = l.length
  | [], _ => rfl
  | x :: xs, h => by
    have hx := h x (List.mem_cons_self x xs)
    have ih := filter_partition_length p q xs
      (fun y hy => h y (List.mem_cons_of_mem x hy))
    by_cases hp : p x
    · simp [List.filter_cons, hp, hx] at ih ⊢
      omega
    · simp at hp
      simp [List.filter_cons, hp, hx] at ih ⊢
      omega

/-! ### Claim theorems -/

/-- C1: for every list of N ≥ 0 input image paths, `process_batch` returns
exactly N outcomes, one per input job in input order, each carrying
`source_image` equal to its originating job's stem + ".HEIC"; no job is
omitted, duplicated, or left pending. -/
theorem process_batch_outcome_per_job
    (attempt : ImagePath → Nat → Except PyExc ExtractionResult)
    (addr : String) (image_paths : List ImagePath) :
    (process_batch attempt addr image_paths).length = image_paths.length ∧
    (process_batch attempt addr image_paths).map (fun o => o.source_image) =
      image_paths.map (fun p => p.stem ++ ".HEIC") := by
  constructor
  · simp [process_batch]
  · induction image_paths with
    | nil => rfl
    | cons p ps ih =>
      simp only [process_batch, List.map_cons] at ih ⊢
      exact congrArg₂ (· :: ·) (process_single_image_source_image attempt addr p) ih

/-- C3: `process_single_image` never propagates an exception to its caller
(it is a total function into `Outcome`); a job whose remote call raises on
every attempt yields a status="failed" outcome, and the batch still has one
outcome for every job, each with status success or failed. -/
theorem failure_captured_as_data
    (attempt : ImagePath → Nat → Except PyExc ExtractionResult)
    (addr : String) (p : ImagePath) (image_paths : List ImagePath)
    (hfail : ∀ k, ∃ e, attempt p k = Except.error e) :
    (process_single_image attempt addr p).status = "failed" ∧
    (process_batch attempt addr image_paths).length = image_paths.length ∧
    ∀ q, (process_single_image attempt addr q).status = "success" ∨
      (process_single_image attempt addr q).status = "failed" := by
  obtain ⟨e1, h1⟩ := hfail 1
  obtain ⟨e2, h2⟩ := hfail 2
  obtain ⟨e3, h3⟩ := hfail 3
  refine ⟨?_, by simp [process_batch],
    fun q => process_single_image_status attempt addr q⟩
  unfold process_single_image
  rw [extract_contact_exhausts (attempt p) e1 e2 e3 h1 h2 h3]

/-- Witness for C3: the always-raising behaviour on a concrete one-job batch. -/
theorem failure_captured_as_data_witness :
    (process_single_image (fun _ => alwaysBoom) someAddr ⟨"IMG_1"⟩).status =
      "failed" ∧
    (process_batch (fun _ => alwaysBoom) someAddr [⟨"IMG_1"⟩]).length =
      [(⟨"IMG_1"⟩ : ImagePath)].length ∧
    ∀ q, (process_single_image (fun _ => alwaysBoom) someAddr q).status =
        "success" ∨
      (process_single_image (fun _ => alwaysBoom) someAddr q).status =
        "failed" :=
  failure_captured_as_data (fun _ => alwaysBoom) someAddr ⟨"IMG_1"⟩
    [⟨"IMG_1"⟩] (fun _ => ⟨⟨"Exception", "boom"⟩, rfl⟩)

/-- C4: a job whose remote call raises on every attempt is attempted exactly
3 times in total, and the backoff delays inserted between consecutive
attempts are non-decreasing and each at most 60 seconds. -/
theorem always_failing_attempt_count
    (call : Nat → Except PyExc ExtractionResult)
    (hfail : ∀ k, ∃ e, call k = Except.error e) :
    (extract_contact call).2.1 = 3 ∧
    List.Chain' (fun a b => a ≤ b) (extract_contact call).2.2 ∧
    ∀ w ∈ (extract_contact call).2.2, w ≤ 60 := by
  obtain ⟨e1, h1⟩ := hfail 1
  obtain ⟨e2, h2⟩ := hfail 2
  obtain ⟨e3, h3⟩ := hfail 3
  rw [extract_contact_exhausts call e1 e2 e3 h1 h2 h3]
  refine ⟨rfl, ?_, ?_⟩
  · show List.Chain' (fun a b => a ≤ b)
      [waitExponential 1 4 60 1, waitExponential 1 4 60 2]
    exact List.chain'_cons.mpr ⟨by decide, List.chain'_singleton _⟩
  · show ∀ w ∈ [waitExponential 1 4 60 1, waitExponential 1 4 60 2], w ≤ 60
    decide

/-- Witness for C4 at the concrete always-failing behaviour. -/
theorem always_failing_attempt_count_witness :
    (extract_contact alwaysBoom).2.1 = 3 ∧
    List.Chain' (fun a b => a ≤ b) (extract_contact alwaysBoom).2.2 ∧
    ∀ w ∈ (extract_contact alwaysBoom).2.2, w ≤ 60 :=
  always_failing_attempt_count alwaysBoom
    (fun _ => ⟨⟨"Exception", "boom"⟩, rfl⟩)

/-- C5 counterexample: with a remote call that raises Exception("boom") on
every attempt, the outcome's error field is the rendering of the terminal
tenacity RetryError (the decorator is used without reraise=True), not the
last attempt's message "boom". -/
theorem retry_error_message_counterexample :
    (process_single_image (fun _ => alwaysBoom) someAddr ⟨"IMG_1"⟩).error =
      some
        "RetryError[<Future at 0x7f0000000000 state=finished raised Exception>]" ∧
    (process_single_image (fun _ => alwaysBoom) someAddr ⟨"IMG_1"⟩).error ≠
      some "boom" := by
  exact ⟨rfl, by decide⟩

/-- C5 amended: when every attempt raises, the outcome's error field is
str() of the terminal RetryError — the class name of the last attempt's
exception wrapped in the RetryError/future rendering — rather than the last
error's message. -/
theorem retry_error_message_amended
    (attempt : ImagePath → Nat → Except PyExc ExtractionResult)
    (addr : String) (p : ImagePath) (e1 e2 e3 : PyExc)
    (h1 : attempt p 1 = Except.error e1) (h2 : attempt p 2 = Except.error e2)
    (h3 : attempt p 3 = Except.error e3) :
    (process_single_image attempt addr p).error =
      some (strRetryError addr e3) := by
  unfold process_single_image
  rw [extract_contact_exhausts (attempt p) e1 e2 e3 h1 h2 h3]

/-- Witness for the amended C5 at a concrete always-raising behaviour. -/
theorem retry_error_message_amended_witness :
    (process_single_image (fun _ => alwaysBoom) someAddr ⟨"IMG_2"⟩).error =
      some (strRetryError someAddr ⟨"Exception", "boom"⟩) :=
  retry_error_message_amended (fun _ => alwaysBoom) someAddr ⟨"IMG_2"⟩
    ⟨"Exception", "boom"⟩ ⟨"Exception", "boom"⟩ ⟨"Exception", "boom"⟩
    rfl rfl rfl

/-- C6: the wait inserted between attempts k and k+1 when a retry occurs is
`waitExponential 1 4 60 k`, and for every k ≥ 1 this equals the spec
formula max(minWait, min(maxWait, base * 2^(k-1))) with base=1, minWait=4,
maxWait=60. -/
theorem backoff_wait_formula :
    (∀ k, 1 ≤ k →
      waitExponential 1 4 60 k = max 4 (min 60 (1 * 2 ^ (k - 1)))) ∧
    ∀ (call : Nat → Except PyExc ExtractionResult) (fuel k : Nat) (e : PyExc),
      call k = Except.error e → 2 ≤ fuel →
      (runRetryGo call fuel k).2.2.head? =
        some (waitExponential 1 4 60 k) := by
  constructor
  · intro k hk
    unfold waitExponential
    generalize 1 * 2 ^ (k - 1) = m
    omega
  · intro call fuel k e hcall hfuel
    obtain ⟨f, rfl⟩ : ∃ f, fuel = f + 2 := ⟨fuel - 2, by omega⟩
    simp [runRetryGo, hcall]

/-- Witness for C6 at k = 1, fuel = 3, with the always-raising behaviour. -/
theorem backoff_wait_formula_witness :
    waitExponential 1 4 60 1 = max 4 (min 60 (1 * 2 ^ (1 - 1))) ∧
    (runRetryGo alwaysBoom 3 1).2.2.head? =
      some (waitExponential 1 4 60 1) :=
  ⟨backoff_wait_formula.1 1 (by decide),
   backoff_wait_formula.2 alwaysBoom 3 1 ⟨"Exception", "boom"⟩ rfl
     (by decide)⟩

/-- C7: every outcome has status success or failed; the contact payload is
present iff status is success; the error field is non-null iff status is
failed; the source_image correlation key is present in both cases. -/
theorem outcome_field_presence
    (attempt : ImagePath → Nat → Except PyExc ExtractionResult)
    (addr : String) (p : ImagePath) :
    ((process_single_image attempt addr p).status = "success" ∨
      (process_single_image attempt addr p).status = "failed") ∧
    ((process_single_image attempt addr p).contactData.isSome ↔
      (process_single_image attempt addr p).status = "success") ∧
    ((process_single_image attempt addr p).error.isSome ↔
      (process_single_image attempt addr p).status = "failed") ∧
    (process_single_image attempt addr p).source_image =
      p.stem ++ ".HEIC" := by
  unfold process_single_image
  split
  · exact ⟨Or.inl rfl, by simp, by simp, rfl⟩
  · exact ⟨Or.inr rfl, by simp, by simp, rfl⟩

/-- C2: at every instant during a batch run with configured limit C ≥ 1 and
any interleaving of the per-job tasks, the number of outstanding semaphore
tokens — concurrently in-flight remote extraction calls — is at most C. -/
theorem concurrency_bounded (C N : Nat) (_hC : 1 ≤ C) (s : BatchState)
    (h : Reachable C N s) : countRunning s ≤ C := by
  have hinv := sem_invariant C N s h
  omega

/-- Witness for C2: a concrete reachable state of a limit-2, 1-job run with
the single task holding the gate. -/
theorem concurrency_bounded_witness :
    countRunning ⟨1, [TaskPhase.running]⟩ ≤ 2 :=
  concurrency_bounded 2 1 (by decide) ⟨1, [TaskPhase.running]⟩
    (Reachable.step Reachable.init
      (Step.acquire (initState 2 1) 0 rfl (by decide)))

/-- C8: the aggregation step partitions the outcomes of a batch: the lengths
of the successes and failures lists add up to the total, which is the input
length, and any outcome of the batch is in the successes list iff its
status is success, in the failures list iff its status is failed, and never
in both. -/
theorem aggregation_partition
    (attempt : ImagePath → Nat → Except PyExc ExtractionResult)
    (addr : String) (image_paths : List ImagePath) (o : Outcome)
    (ho : o ∈ process_batch attempt addr image_paths) :
    (successfulOf (process_batch attempt addr image_paths)).length +
        (failedOf (process_batch attempt addr image_paths)).length =
      (process_batch attempt addr image_paths).length ∧
    (process_batch attempt addr image_paths).length = image_paths.length ∧
    (o ∈ successfulOf (process_batch attempt addr image_paths) ↔
      o.status = "success") ∧
    (o ∈ failedOf (process_batch attempt addr image_paths) ↔
      o.status = "failed") ∧
    ¬(o ∈ successfulOf (process_batch attempt addr image_paths) ∧
      o ∈ failedOf (process_batch attempt addr image_paths)) := by
  have hstat : ∀ x ∈ process_batch attempt addr image_paths,
      x.status = "success" ∨ x.status = "failed" := by
    intro x hx
    obtain ⟨q, hq, rfl⟩ := List.mem_map.mp hx
    exact process_single_image_status attempt addr q
  have hpq : ∀ x ∈ process_batch attempt addr image_paths,
      ((fun r : Outcome => r.status == "failed") x) =
        !((fun r : Outcome => r.status == "success") x) := by
    intro x hx
    show (x.status == "failed") = !(x.status == "success")
    rcases hstat x hx with h | h <;> rw [h] <;> decide
  have hcount := filter_partition_length _ _ _ hpq
  have hs : o ∈ successfulOf (process_batch attempt addr image_paths) ↔
      o.status = "success" := by
    simp [successfulOf, List.mem_filter, ho]
  have hf : o ∈ failedOf (process_batch attempt addr image_paths) ↔
      o.status = "failed" := by
    simp [failedOf, List.mem_filter, ho]
  refine ⟨hcount, by simp [process_batch], hs, hf, ?_⟩
  rintro ⟨h1, h2⟩
  have hx1 := hs.mp h1
  have hx2 := hf.mp h2
  rw [hx1] at hx2
  exact absurd hx2 (by decide)

/-- Witness for C8: a one-job batch under the always-raising behaviour, with
its single (failed) outcome. -/
theorem aggregation_partition_witness :
    (successfulOf (process_batch (fun _ => alwaysBoom) someAddr
          [⟨"IMG_1"⟩])).length +
        (failedOf (process_batch (fun _ => alwaysBoom) someAddr
          [⟨"IMG_1"⟩])).length =
      (process_batch (fun _ => alwaysBoom) someAddr [⟨"IMG_1"⟩]).length ∧
    (process_batch (fun _ => alwaysBoom) someAddr [⟨"IMG_1"⟩]).length =
      [(⟨"IMG_1"⟩ : ImagePath)].length ∧
    (process_single_image (fun _ => alwaysBoom) someAddr ⟨"IMG_1"⟩ ∈
        successfulOf (process_batch (fun _ => alwaysBoom) someAddr
          [⟨"IMG_1"⟩]) ↔
      (process_single_image (fun _ => alwaysBoom) someAddr
        ⟨"IMG_1"⟩).status = "success") ∧
    (process_single_image (fun _ => alwaysBoom) someAddr ⟨"IMG_1"⟩ ∈
        failedOf (process_batch (fun _ => alwaysBoom) someAddr
          [⟨"IMG_1"⟩]) ↔
      (process_single_image (fun _ => alwaysBoom) someAddr
        ⟨"IMG_1"⟩).status = "failed") ∧
    ¬(process_single_image (fun _ => alwaysBoom) someAddr ⟨"IMG_1"⟩ ∈
        successfulOf (process_batch (fun _ => alwaysBoom) someAddr
          [⟨"IMG_1"⟩]) ∧
      process_single_image (fun _ => alwaysBoom) someAddr ⟨"IMG_1"⟩ ∈
        failedOf (process_batch (fun _ => alwaysBoom) someAddr
          [⟨"IMG_1"⟩])) :=
  aggregation_partition (fun _ => alwaysBoom) someAddr [⟨"IMG_1"⟩]
    (process_single_image (fun _ => alwaysBoom) someAddr ⟨"IMG_1"⟩)
    (List.mem_map_of_mem _ (List.mem_singleton_self _))

/-- C9: the process exit code is 0 iff the configuration is valid, converted
inputs exist, and either no job failed or at least one job succeeded (so it
is 1 when the configuration is invalid, when no inputs were found, or when
all jobs fail); the exit code is always 0 or 1. -/
theorem exit_code_contract (apiKey endpoint : Option String)
    (attempt : ImagePath → Nat → Except PyExc ExtractionResult)
    (addr : String) (converted : List ImagePath) :
    (mainExitCode apiKey endpoint attempt addr converted = 0 ↔
      (configValid apiKey endpoint = true ∧ converted ≠ [] ∧
        ((failedOf (process_batch attempt addr converted)).length = 0 ∨
          0 < (successfulOf (process_batch attempt addr converted)).length))) ∧
    (mainExitCode apiKey endpoint attempt addr converted = 0 ∨
      mainExitCode apiKey endpoint attempt addr converted = 1) := by
  constructor
  · unfold mainExitCode
    split_ifs with h1 h2 h3 h4
    · simp [h1]
    · rw [List.isEmpty_iff] at h2
      subst h2
      simp
    · exact iff_of_true rfl
        ⟨(Bool.eq_false_or_eq_true
            (configValid apiKey endpoint)).resolve_right h1,
          fun hc => h2 (by simp [hc]), Or.inl h3⟩
    · exact iff_of_true rfl
        ⟨(Bool.eq_false_or_eq_true
            (configValid apiKey endpoint)).resolve_right h1,
          fun hc => h2 (by simp [hc]), Or.inr h4⟩
    · refine iff_of_false not_false ?_
      rintro ⟨ha, hb, hc | hc⟩
      · exact h3 hc
      · exact h4 hc
  · unfold mainExitCode
    split_ifs <;> simp

/-- C10: the gate slot is released when a job finishes on both the success
path and the exception path (both `finish` transitions restore a token);
consequently, once every task of a batch is done, all C semaphore slots are
free again. -/
theorem gate_released_after_batch (C N : Nat) (s : BatchState)
    (h : Reachable C N s) (hdone : ∀ t ∈ s.tasks, isDone t = true) :
    s.sem = C := by
  have hinv := sem_invariant C N s h
  have hz : countRunning s = 0 := by
    rw [countRunning, List.countP_eq_zero]
    intro a ha
    have := hdone a ha
    cases a <;> simp_all [isDone, isRunning]
  omega

/-- Witness for C10: a limit-2, 1-job run whose task acquires the gate and
finishes on the exception path; all 2 slots are free at the end. -/
theorem gate_released_after_batch_witness :
    (⟨2, [TaskPhase.done true]⟩ : BatchState).sem = 2 :=
  gate_released_after_batch 2 1 ⟨2, [TaskPhase.done true]⟩
    (Reachable.step
      (Reachable.step Reachable.init
        (Step.acquire (initState 2 1) 0 rfl (by decide)))
      (Step.finish ⟨1, [TaskPhase.running]⟩ 0 true rfl))
    (by decide)

end HeicExtract
